import Mathlib

/-!
Verification of the `Ora` payment backend service.

The development shallowly embeds the Python sources under
`backend/payment/app/` (configuration loading in `config/settings.py`,
the FastAPI lifespan in `main.py`, and `middleware/auth.py`) together
with the messaging-core components (RetryScheduler, Publisher,
ConsumerPool) that the specification describes but whose implementation
module (`app/infrastructure/messaging/*`) is only referenced from
`main.py`; those are modelled from the specification and marked as such.

Conventions: Python exceptions are encoded as `Option`/`Except` values,
machine integers as `Int`, floats as exact rationals `ℚ` (the service
only manipulates small decimal literals), and durations as nonnegative
rationals `ℚ≥0`.
-/

namespace Ora

/-! ### Python string primitives

Helpers mirroring the Python `str` operations used by the sources.
They operate on `List Char` so that everything reduces structurally. -/

/-- Python `str.lower()` (ASCII range, which is all the code compares). -/
def pyLower (s : String) : String :=
  String.mk (s.toList.map Char.toLower)

/-- Python `s.startswith(pre)`. -/
def pyStartsWith (s pre : String) : Bool :=
  pre.toList.isPrefixOf s.toList

/-- Accumulate a decimal digit list into a natural number. -/
def digitsToNat (ds : List Char) : Nat :=
  ds.foldl (fun a c => 10 * a + (c.toNat - '0'.toNat)) 0

/-- Strip leading and trailing whitespace, as Python `int()`/`float()` do
before parsing. -/
def pyStrip (cs : List Char) : List Char :=
  ((cs.dropWhile Char.isWhitespace).reverse.dropWhile Char.isWhitespace).reverse

/-- Python `int(value)` on a string: optional sign followed by a nonempty
run of decimal digits (surrounding whitespace allowed); any other input
raises `ValueError`, encoded here as `none`.  (Digit-group underscores,
a rarely used Python extension, are not modelled.) -/
def pyIntOfString (s : String) : Option Int :=
  match pyStrip s.toList with
  | [] => none
  | c :: rest =>
    let (sign, digits) : Int × List Char :=
      if c = '-' then (-1, rest)
      else if c = '+' then (1, rest)
      else (1, c :: rest)
    if digits ≠ [] ∧ digits.all Char.isDigit then
      some (sign * Int.ofNat (digitsToNat digits))
    else none

/-- Python `float(value)` on a string, landing in `ℚ`: optional sign,
a decimal mantissa with at least one digit, and an optional exponent;
the exact decimal value is kept as a rational built with `mkRat`.
Any other input raises `ValueError`, encoded as `none`.  (The special
values `inf`/`nan`, which have no rational image, are not modelled and
also map to `none`.) -/
def pyFloatOfString (s : String) : Option ℚ :=
  match pyStrip s.toList with
  | [] => none
  | c :: rest =>
    let (neg, body) : Bool × List Char :=
      if c = '-' then (true, rest)
      else if c = '+' then (false, rest)
      else (false, c :: rest)
    let intPart := body.takeWhile Char.isDigit
    let afterInt := body.dropWhile Char.isDigit
    let (fracPart, afterFrac) : List Char × List Char :=
      match afterInt with
      | '.' :: t => (t.takeWhile Char.isDigit, t.dropWhile Char.isDigit)
      | _ => ([], afterInt)
    if intPart = [] ∧ fracPart = [] then none
    else
      let mag : Nat := digitsToNat intPart * 10 ^ fracPart.length + digitsToNat fracPart
      let num : Int := if neg then -(mag : Int) else (mag : Int)
      let den : Nat := 10 ^ fracPart.length
      match afterFrac with
      | [] => some (mkRat num den)
      | e :: t =>
        if e = 'e' ∨ e = 'E' then
          let (eneg, edigits) : Bool × List Char :=
            match t with
            | '-' :: t2 => (true, t2)
            | '+' :: t2 => (false, t2)
            | _ => (false, t)
          if edigits ≠ [] ∧ edigits.all Char.isDigit then
            let ev := digitsToNat edigits
            if eneg then some (mkRat num (den * 10 ^ ev))
            else some (mkRat (num * (10 : Int) ^ ev) den)
          else none
        else none

/-- Cons a character onto the first group of a split result
(helper for `pySplitList`). -/
def splitConsHead (c : Char) : List (List Char) → List (List Char)
  | [] => [[c]]
  | h :: t => (c :: h) :: t

/-- Python `s.split(sep)` for a nonempty separator, scanning left to
right and cutting at each leftmost non-overlapping occurrence.  The
fuel argument (instantiated with the length of the input) only serves
termination; every step consumes at least one character.  Python raises
on an empty separator; the code never passes one. -/
def pySplitList (sep : List Char) : Nat → List Char → List (List Char)
  | 0, cs => [cs]
  | fuel + 1, cs =>
    if sep ≠ [] ∧ sep.isPrefixOf cs then
      [] :: pySplitList sep fuel (cs.drop sep.length)
    else
      match cs with
      | [] => [[]]
      | c :: rest => splitConsHead c (pySplitList sep fuel rest)

/-- Python `s.split(sep)`. -/
def pySplit (s sep : String) : List String :=
  (pySplitList sep.toList s.toList.length s.toList).map String.mk

/-! ### `config/settings.py` — `get_env_var`

The environment is a partial map from variable names to raw strings
(`os.getenv` returning `None` for an unset variable). -/

/-- An environment: `os.environ` as consulted through `os.getenv`. -/
def Env : Type := String → Option String

/-- A Python value of one of the four default types `get_env_var`
accepts (`Union[str, int, float, bool]`). -/
inductive PyVal where
  | s (v : String)
  | i (v : Int)
  | f (v : ℚ)
  | b (v : Bool)
  deriving Repr, DecidableEq

/-- The truthy spellings recognised by `get_env_var` for a bool default:
`value.lower() in ("true", "1", "t", "yes", "y")`. -/
def truthyStrings : List String := ["true", "1", "t", "yes", "y"]

/-- `settings.py:7-21`.  `get_env_var(name, default)`: an unset variable
yields the default; a bool default tests the lowercased value against
the truthy spellings; otherwise the raw value is converted to the
default's type, with `ValueError`/`TypeError` caught and mapped to the
default.  A str default's conversion `str(value)` never fails. -/
def get_env_var (env : Env) (name : String) (default : PyVal) : PyVal :=
  match env name with
  | none => default
  | some value =>
    match default with
    | .b _ => .b (truthyStrings.contains (pyLower value))
    | .i _ =>
      match pyIntOfString value with
      | some n => .i n
      | none => default
    | .f _ =>
      match pyFloatOfString value with
      | some q => .f q
      | none => default
    | .s _ => .s value

/-- Project a `PyVal` known to be a string. -/
def PyVal.asStr : PyVal → String
  | .s v => v
  | _ => ""

/-- Project a `PyVal` known to be an int. -/
def PyVal.asInt : PyVal → Int
  | .i v => v
  | _ => 0

/-- Project a `PyVal` known to be a float. -/
def PyVal.asFloat : PyVal → ℚ
  | .f v => v
  | _ => 0

/-- Project a `PyVal` known to be a bool. -/
def PyVal.asBool : PyVal → Bool
  | .b v => v
  | _ => false

/-! ### `config/settings.py` — settings classes

Each Python settings class computes its fields once from the
environment via `get_env_var`; the embedding is a record constructed by
a function of the environment.  Field types follow the runtime types of
the Python values (note `TelemetrySettings` annotates its flags as
`str` but the `bool` defaults make the runtime values booleans). -/

/-- `settings.py:24-29`, class `AppSettings`. -/
structure AppSettings where
  name : String
  version : String
  port : String
  host : String
  debug : Bool
  deriving Repr, DecidableEq

/-- Construct `AppSettings` from the environment. -/
def mkAppSettings (env : Env) : AppSettings where
  name := (get_env_var env "PAYMENT_NAME" (.s "payment-service")).asStr
  version := (get_env_var env "PAYMENT_VERSION" (.s "1.0.0")).asStr
  port := (get_env_var env "PAYMENT_PORT" (.s "8086")).asStr
  host := (get_env_var env "PAYMENT_HOST" (.s "0.0.0.0")).asStr
  debug := (get_env_var env "PAYMENT_DEBUG" (.b false)).asBool

/-- `settings.py:32-36`, class `CORSSettings`.  The three list fields
are the comma-splits of the raw environment values (default `""`). -/
structure CORSSettings where
  allow_credentials : Bool
  allow_origins : List String
  allow_methods : List String
  allow_headers : List String
  deriving Repr, DecidableEq

/-- Construct `CORSSettings` from the environment. -/
def mkCORSSettings (env : Env) : CORSSettings where
  allow_credentials := (get_env_var env "ALLOWED_CREDENTIALS" (.b true)).asBool
  allow_origins := pySplit (get_env_var env "ALLOWED_ORIGINS" (.s "")).asStr ","
  allow_methods := pySplit (get_env_var env "ALLOWED_METHODS" (.s "")).asStr ","
  allow_headers := pySplit (get_env_var env "ALLOWED_HEADERS" (.s "")).asStr ","

/-- `settings.py:39-48`, class `DatabaseSettings`. -/
structure DatabaseSettings where
  host : String
  port : Int
  name : String
  user : String
  password : String
  pool_size : Int
  max_overflow : Int
  timeout : Int
  debug : Bool
  deriving Repr, DecidableEq

/-- Construct `DatabaseSettings` from the environment. -/
def mkDatabaseSettings (env : Env) : DatabaseSettings where
  host := (get_env_var env "POSTGRES_HOST" (.s "localhost")).asStr
  port := (get_env_var env "POSTGRES_PORT" (.i 5432)).asInt
  name := (get_env_var env "PAYMENT_DB_NAME" (.s "")).asStr
  user := (get_env_var env "PAYMENT_DB_USER" (.s "")).asStr
  password := (get_env_var env "PAYMENT_DB_PASS" (.s "")).asStr
  pool_size := (get_env_var env "PAYMENT_DB_POOL_SIZE" (.i 10)).asInt
  max_overflow := (get_env_var env "PAYMENT_DB_MAX_OVERFLOW" (.i 20)).asInt
  timeout := (get_env_var env "PAYMENT_DB_TIMEOUT" (.i 30)).asInt
  debug := (get_env_var env "PAYMENT_DB_DEBUG" (.b false)).asBool

/-- `settings.py:51-54`, class `KeycloakSettings`. -/
structure KeycloakSettings where
  jwks_uri : String
  issuer_uri : String
  audience : String
  deriving Repr, DecidableEq

/-- Construct `KeycloakSettings` from the environment. -/
def mkKeycloakSettings (env : Env) : KeycloakSettings where
  jwks_uri := (get_env_var env "KEYCLOAK_JWKS_URI" (.s "")).asStr
  issuer_uri := (get_env_var env "KEYCLOAK_ISSUER_URI" (.s "")).asStr
  audience := (get_env_var env "KEYCLOAK_AUDIENCE" (.s "")).asStr

/-- `settings.py:57-59`, class `LogSettings`. -/
structure LogSettings where
  service_name : String
  level : String
  deriving Repr, DecidableEq

/-- Construct `LogSettings` from the environment. -/
def mkLogSettings (env : Env) : LogSettings where
  service_name := (get_env_var env "PAYMENT_NAME" (.s "payment-service")).asStr
  level := (get_env_var env "PAYMENT_LOG_LEVEL" (.s "INFO")).asStr

/-- `settings.py:62-68`, class `TelemetrySettings`. -/
structure TelemetrySettings where
  otel_endpoint : String
  enable_otel_tracing : Bool
  enable_otel_metrics : Bool
  enable_otel_logging : Bool
  deriving Repr, DecidableEq

/-- Construct `TelemetrySettings` from the environment. -/
def mkTelemetrySettings (env : Env) : TelemetrySettings where
  otel_endpoint := (get_env_var env "OTEL_GRPC_URL" (.s "http://localhost:4317")).asStr
  enable_otel_tracing := (get_env_var env "PAYMENT_OTEL_TRACING" (.b true)).asBool
  enable_otel_metrics := (get_env_var env "PAYMENT_OTEL_METRICS" (.b true)).asBool
  enable_otel_logging := (get_env_var env "PAYMENT_OTEL_LOGGING" (.b true)).asBool

/-- `settings.py:71-92`, class `RabbitMqSettings`: the broker endpoint,
topology names and the retry/consumer parameters. -/
structure RabbitMqSettings where
  host : String
  port : Int
  username : String
  password : String
  virtual_host : String
  exchange : String
  dead_letter_exchange : String
  message_ttl : Int
  retry_count : Int
  initial_retry_interval_ms : Int
  max_retry_interval_ms : Int
  retry_multiplier : ℚ
  concurrent_consumers : Int
  prefetch_count : Int
  publisher_confirm_timeout_ms : Int
  deriving Repr, DecidableEq

/-- Construct `RabbitMqSettings` from the environment. -/
def mkRabbitMqSettings (env : Env) : RabbitMqSettings where
  host := (get_env_var env "RABBITMQ_HOST" (.s "localhost")).asStr
  port := (get_env_var env "RABBITMQ_PORT" (.i 5672)).asInt
  username := (get_env_var env "RABBITMQ_USER" (.s "guest")).asStr
  password := (get_env_var env "RABBITMQ_PASS" (.s "guest")).asStr
  virtual_host := (get_env_var env "RABBITMQ_VHOST" (.s "/")).asStr
  exchange := (get_env_var env "RABBITMQ_EXCHANGE" (.s "payment-service-exc")).asStr
  dead_letter_exchange := (get_env_var env "RABBITMQ_DLQ_EXCHANGE" (.s "dlq-exc")).asStr
  message_ttl := (get_env_var env "RABBITMQ_MESSAGE_TTL" (.i 30000)).asInt
  retry_count := (get_env_var env "RABBITMQ_RETRY_COUNT" (.i 3)).asInt
  initial_retry_interval_ms :=
    (get_env_var env "RABBITMQ_INITIAL_RETRY_INTERVAL_MS" (.i 1000)).asInt
  max_retry_interval_ms :=
    (get_env_var env "RABBITMQ_MAX_RETRY_INTERVAL_MS" (.i 10000)).asInt
  retry_multiplier := (get_env_var env "RABBITMQ_RETRY_MULTIPLIER" (.f 2)).asFloat
  concurrent_consumers := (get_env_var env "RABBITMQ_CONCURRENT_CONSUMERS" (.i 1)).asInt
  prefetch_count := (get_env_var env "RABBITMQ_PREFETCH_COUNT" (.i 10)).asInt
  publisher_confirm_timeout_ms :=
    (get_env_var env "RABBITMQ_PUBLISHER_CONFIRM_TIMEOUT_MS" (.i 1000)).asInt

/-- `settings.py:95-97`, class `ExternalServiceSettings`. -/
structure ExternalServiceSettings where
  learning_service_url : String
  scheduling_service_url : String
  deriving Repr, DecidableEq

/-- Construct `ExternalServiceSettings` from the environment. -/
def mkExternalServiceSettings (env : Env) : ExternalServiceSettings where
  learning_service_url := (get_env_var env "LEARNING_URL" (.s "")).asStr
  scheduling_service_url := (get_env_var env "SCHEDULING_URL" (.s "")).asStr

/-- `settings.py:100-108`, class `Settings`: the aggregate of all
settings groups.  Its construction is a total function of the
environment: no branch of `get_env_var` or of any settings class
raises. -/
structure Settings where
  app : AppSettings
  cors : CORSSettings
  db : DatabaseSettings
  keycloak : KeycloakSettings
  log : LogSettings
  telemetry : TelemetrySettings
  rabbitmq : RabbitMqSettings
  external_services : ExternalServiceSettings
  deriving Repr, DecidableEq

/-- `settings.py:111` / `get_settings` — constructing the aggregate. -/
def mkSettings (env : Env) : Settings where
  app := mkAppSettings env
  cors := mkCORSSettings env
  db := mkDatabaseSettings env
  keycloak := mkKeycloakSettings env
  log := mkLogSettings env
  telemetry := mkTelemetrySettings env
  rabbitmq := mkRabbitMqSettings env
  external_services := mkExternalServiceSettings env

/-! ### `middleware/auth.py` — `AuthMiddleware.dispatch`

The middleware is embedded as a pure function of the request's method,
URL path and `Authorization` header, parameterised by the outcome of
`TokenValidator.validate_token` on the extracted token string.  The
downstream `call_next` is not modelled as a computation; the outcome
records whether it was invoked and with what authentication state. -/

/-- What `validator.validate_token(token)` does for a given token:
return a payload (with an optional `sub` claim), raise
`UnauthorizedException` with a message, or raise some other exception. -/
inductive ValidatorRes where
  | payload (sub : Option String)
  | unauthorizedExc (msg : String)
  | otherExc
  deriving Repr, DecidableEq

/-- The observable outcome of `AuthMiddleware.dispatch`:
`nextPublic` — `call_next` invoked with no token validation;
`nextAuthed` — `call_next` invoked after validation set
`request.state.user_id`; `unauthorized` — a 401 JSON response with the
given message, `call_next` never invoked; `raised` — an exception was
logged and re-raised (again `call_next` never invoked). -/
inductive DispatchOutcome where
  | nextPublic
  | nextAuthed (userId : String)
  | unauthorized (msg : String)
  | raised
  deriving Repr, DecidableEq

/-- Python `uuid.UUID(hex=...)`: after discarding an optional
`urn:uuid:` prefix, braces and hyphens, the string must be exactly 32
hexadecimal digits.  Only validity is modelled; the canonical textual
form of the resulting UUID keeps the stripped lowercased digits. -/
def pyUUIDHex (s : String) : Option String :=
  let t := s.toList.filter (fun c => c ≠ '-' ∧ c ≠ '{' ∧ c ≠ '\x7d')
  let t := match t with
    | 'u' :: 'r' :: 'n' :: ':' :: 'u' :: 'u' :: 'i' :: 'd' :: ':' :: r => r
    | _ => t
  if t.length = 32 ∧ t.all (fun c => c.isDigit ∨ ('a' ≤ c ∧ c ≤ 'f') ∨ ('A' ≤ c ∧ c ≤ 'F')) then
    some (String.mk (t.map Char.toLower))
  else none

/-- `auth.py:24-65`, `AuthMiddleware.dispatch`.  `OPTIONS` requests and
requests whose path starts with a configured public prefix bypass
validation entirely.  Otherwise a missing or non-`Bearer`
`Authorization` header yields 401; the token after `"Bearer "`
(extracted, as in the source, by `token.split("Bearer ")[1]`) is passed
to the validator; a payload without a `sub` claim yields 401; an
`UnauthorizedException` yields 401 with the exception's message; any
other exception (including an invalid UUID in `sub`) is re-raised. -/
def dispatch (validate : String → ValidatorRes) (public_apis : List String)
    (method path : String) (authHeader : Option String) : DispatchOutcome :=
  if method = "OPTIONS" then .nextPublic
  else if public_apis.any (fun api => pyStartsWith path api) then .nextPublic
  else
    match authHeader with
    | none => .unauthorized "Invalid token"
    | some token =>
      if token = "" ∨ ¬ pyStartsWith token "Bearer " then
        .unauthorized "Invalid token"
      else
        let token := ((pySplit token "Bearer ").drop 1).headD ""
        match validate token with
        | .unauthorizedExc msg => .unauthorized msg
        | .otherExc => .raised
        | .payload sub =>
          match sub with
          | none => .unauthorized "Invalid token: user id not found"
          | some userId =>
            match pyUUIDHex userId with
            | none => .raised
            | some u => .nextAuthed u

/-- `main.py:88-92`: the `public_apis` list the application passes to
`AuthMiddleware`. -/
def mainPublicApis : List String := ["/docs", "/openapi", "/health"]

/-! ### `main.py` — application lifespan

`lifespan` checks the database connection (re-raising any failure),
then constructs the `RabbitMqApplicationManager` and runs its
`startup()`, re-raising any failure.  The manager's own startup
sequence is not under `src/`; it is modelled from the specification. -/

/-- One step of the messaging manager's startup sequence. -/
inductive StartupStep where
  | connect
  | declareTopology
  | startConsumers
  deriving Repr, DecidableEq

/-- Modelled from the spec: `RabbitMqApplicationManager.startup()`
(module `app/infrastructure/messaging/manager`, not under `src/`) runs
`ConnectionSupervisor.connect()`, then `Topology.declare()`, then
starts the `ConsumerPool` consumers; any failure is fatal and aborts
the sequence.  The result pairs the trace of steps attempted, in
order, with either the first failing step or success. -/
def managerStartup (ok : StartupStep → Bool) :
    List StartupStep × Except StartupStep Unit :=
  if ¬ ok .connect then ([.connect], .error .connect)
  else if ¬ ok .declareTopology then
    ([.connect, .declareTopology], .error .declareTopology)
  else if ¬ ok .startConsumers then
    ([.connect, .declareTopology, .startConsumers], .error .startConsumers)
  else ([.connect, .declareTopology, .startConsumers], .ok ())

/-- A failure surfaced out of the application lifespan. -/
inductive StartupFailure where
  | db
  | rabbitmq (step : StartupStep)
  deriving Repr, DecidableEq

/-- `main.py:24-52`, the startup half of `lifespan`: the `SELECT 1`
database check (any exception logged and re-raised), then
`RabbitMqApplicationManager.startup()` (any exception logged and
re-raised).  Only when both succeed does startup complete and the
application serve traffic. -/
def lifespanStartup (dbOk : Bool) (ok : StartupStep → Bool) :
    Except StartupFailure Unit :=
  if ¬ dbOk then .error .db
  else
    match (managerStartup ok).2 with
    | .error s => .error (.rabbitmq s)
    | .ok _ => .ok ()

/-! ### Messaging core (modelled from the spec)

The modules `app/infrastructure/messaging/*` implementing
RetryScheduler, Publisher and ConsumerPool are not under `src/`; the
definitions below are modelled from the specification (§4.1, §4.4,
§4.5).  Durations are nonnegative rationals. -/

/-- Modelled from the spec (§3, §4.1): a `RetryPolicy`'s backoff
parameters — initial interval, multiplier and max interval, as
durations/factors in `ℚ≥0` (the attempt bound lives with the callers). -/
structure RetryPolicy where
  initialInterval : ℚ≥0
  multiplier : ℚ≥0
  maxInterval : ℚ≥0
  deriving DecidableEq

/-- Modelled from the spec (§4.1): `RetryScheduler.nextDelay(attempt)`,
the pure backoff computation `min(initial * multiplier^attempt, max)`
for the 0-indexed attempt number. -/
def nextDelay (p : RetryPolicy) (attempt : ℕ) : ℚ≥0 :=
  min (p.initialInterval * p.multiplier ^ attempt) p.maxInterval

/-- The header key carrying the terminal failure reason on a
dead-lettered message. -/
def failureReasonKey : String := "x-failure-reason"

/-- An observable action of `Publisher.publish` on one envelope:
a send attempt on the primary exchange (with its 0-indexed attempt
number), a backoff sleep, or a direct publish to the dead-letter
exchange carrying the given headers. -/
inductive PublishEvent where
  | send (attempt : ℕ)
  | sleepFor (d : ℚ≥0)
  | deadLetter (headers : List (String × String))
  deriving DecidableEq

/-- The error a publish call can surface to its caller. -/
inductive PublishError where
  | publishExhausted
  deriving Repr, DecidableEq

/-- Modelled from the spec (§4.4): the attempt loop of
`Publisher.publish` from attempt number `attempt` with `remaining`
retries left.  Each iteration sends and waits for confirmation;
confirmation means success; otherwise, with retries remaining, it
sleeps `nextDelay(attempt)` and retries the same envelope, and with
none remaining it publishes the envelope to the dead-letter exchange
tagged with `x-failure-reason` and returns `PublishExhausted`. -/
def publishGo (p : RetryPolicy) (confirms : ℕ → Bool) :
    ℕ → ℕ → List PublishEvent × Except PublishError Unit
  | attempt, 0 =>
    if confirms attempt then ([.send attempt], .ok ())
    else
      ([.send attempt, .deadLetter [(failureReasonKey, "publish retries exhausted")]],
        .error .publishExhausted)
  | attempt, r + 1 =>
    if confirms attempt then ([.send attempt], .ok ())
    else
      let rest := publishGo p confirms (attempt + 1) r
      (.send attempt :: .sleepFor (nextDelay p attempt) :: rest.1, rest.2)

/-- Modelled from the spec (§4.4): `Publisher.publish` on one envelope,
given the per-attempt confirmation outcomes (`confirms a` is whether
the broker acks attempt `a` within the confirm timeout; a nack, a
timeout and a disconnected state all count as `false`). -/
def publish (p : RetryPolicy) (retry_count : ℕ) (confirms : ℕ → Bool) :
    List PublishEvent × Except PublishError Unit :=
  publishGo p confirms 0 retry_count

/-- An observable action of a ConsumerPool slot processing one
logical message whose handler always fails: a delivery arrives with
the given `x-retry-count` header, a copy is re-published with the
incremented retry count after a computed delay, the original delivery
is acked off the primary queue, or the message is routed to the
dead-letter exchange with the given headers. -/
inductive ConsumeEvent where
  | deliver (retryCount : ℕ)
  | republish (retryCount : ℕ) (delay : ℚ≥0)
  | ack (retryCount : ℕ)
  | deadLetter (headers : List (String × String))
  deriving DecidableEq

/-- The headers put on a consumer-side terminally failed message. -/
def terminalFailureHeaders : List (String × String) :=
  [(failureReasonKey, "handler retries exhausted")]

/-- Modelled from the spec (§4.5, step 4): the per-delivery protocol
for a handler that always returns `Err`, starting from a delivery with
`x-retry-count = rc` and `remaining = retry_count - rc` retries left.
While retries remain, the slot re-publishes a copy with retry count
`rc+1` delayed by `nextDelay(rc)` and acks the original; the broker
then redelivers the copy.  With none remaining it routes the message
to the dead-letter exchange with a terminal-failure header and acks
the original. -/
def consumeGo (p : RetryPolicy) : ℕ → ℕ → List ConsumeEvent
  | 0, rc => [.deliver rc, .deadLetter terminalFailureHeaders, .ack rc]
  | r + 1, rc =>
    [.deliver rc, .republish (rc + 1) (nextDelay p rc), .ack rc] ++
      consumeGo p r (rc + 1)

/-- Modelled from the spec (§4.5): the full trace of one logical
message under a handler that always fails, from its first delivery
(retry count 0) through `retry_count` delayed redeliveries to its
dead-lettering. -/
def consumeAlwaysFail (p : RetryPolicy) (retry_count : ℕ) : List ConsumeEvent :=
  consumeGo p retry_count 0

/-- The retry-count headers of the deliveries in a consumer trace, in
order. -/
def deliveredRCs (tr : List ConsumeEvent) : List ℕ :=
  tr.filterMap fun e =>
    match e with
    | .deliver rc => some rc
    | _ => none

/-- Whether a publish event is a send attempt. -/
def PublishEvent.isSend : PublishEvent → Bool
  | .send _ => true
  | _ => false

/-- Whether a publish event is a dead-letter publish whose headers set
`x-failure-reason`. -/
def PublishEvent.isDeadLetterTagged : PublishEvent → Bool
  | .deadLetter hs => hs.any (fun h => h.1 = failureReasonKey)
  | _ => false

/-- Whether a consume event is a dead-letter routing. -/
def ConsumeEvent.isDeadLetter : ConsumeEvent → Bool
  | .deadLetter _ => true
  | _ => false

/-- Whether a publish event is a publish to the dead-letter exchange. -/
def PublishEvent.isDeadLetter : PublishEvent → Bool
  | .deadLetter _ => true
  | _ => false

/-- The RetryPolicy bounds the specification requires of the
configuration: `retry_count ≥ 0`, `max_retry_interval ≥
initial_retry_interval`, `retry_multiplier ≥ 1`,
`concurrent_consumers ≥ 1`, `prefetch_count ≥ 1`. -/
def retryBoundsOk (s : RabbitMqSettings) : Prop :=
  0 ≤ s.retry_count ∧
    s.initial_retry_interval_ms ≤ s.max_retry_interval_ms ∧
    1 ≤ s.retry_multiplier ∧
    1 ≤ s.concurrent_consumers ∧
    1 ≤ s.prefetch_count

instance (s : RabbitMqSettings) : Decidable (retryBoundsOk s) := by
  unfold retryBoundsOk; infer_instance

/-- A sample environment violating every RetryPolicy bound: negative
retry count, fractional multiplier below one, max interval below the
initial interval, zero consumers and zero prefetch. -/
def envBadRetry : Env := fun n =>
  if n = "RABBITMQ_RETRY_COUNT" then some "-5"
  else if n = "RABBITMQ_RETRY_MULTIPLIER" then some "0.5"
  else if n = "RABBITMQ_MAX_RETRY_INTERVAL_MS" then some "500"
  else if n = "RABBITMQ_CONCURRENT_CONSUMERS" then some "0"
  else if n = "RABBITMQ_PREFETCH_COUNT" then some "0"
  else none

/-- A sample environment setting one flag variable to `"Yes"`. -/
def envFlagYes : Env := fun n =>
  if n = "PAYMENT_DEBUG" then some "Yes" else none

/-- The empty environment: every variable unset. -/
def envUnset : Env := fun _ => none

/-! ## Theorems -/

/-! ### Helper lemmas -/

/-- `splitConsHead` never produces the empty list. -/
theorem splitConsHead_ne_nil (c : Char) (l : List (List Char)) :
    splitConsHead c l ≠ [] := by
  cases l <;> simp [splitConsHead]

/-- `pySplitList` never produces the empty list: a split always has at
least one group. -/
theorem pySplitList_ne_nil (sep : List Char) (fuel : ℕ) (cs : List Char) :
    pySplitList sep fuel cs ≠ [] := by
  induction fuel generalizing cs with
  | zero => simp [pySplitList]
  | succ fuel ih =>
    by_cases h : sep ≠ [] ∧ sep.isPrefixOf cs
    · simp only [pySplitList, if_pos h]
      simp
    · cases cs with
      | nil =>
        simp only [pySplitList, if_neg h]
        simp
      | cons c rest =>
        simp only [pySplitList, if_neg h]
        exact splitConsHead_ne_nil c _

/-- Python `split` never returns the empty list. -/
theorem pySplit_ne_nil (s sep : String) : pySplit s sep ≠ [] := by
  simpa [pySplit] using pySplitList_ne_nil sep.toList s.toList.length s.toList

/-- Attempt counts, dead-letter counts and the final result of the
publish loop when no attempt is ever confirmed, for any starting
attempt number. -/
theorem publishGo_never_confirms (p : RetryPolicy) (r attempt : ℕ) :
    (publishGo p (fun _ => false) attempt r).1.countP PublishEvent.isSend = r + 1 ∧
    (publishGo p (fun _ => false) attempt r).1.countP PublishEvent.isDeadLetter = 1 ∧
    (publishGo p (fun _ => false) attempt r).1.countP PublishEvent.isDeadLetterTagged = 1 ∧
    (publishGo p (fun _ => false) attempt r).2 = .error .publishExhausted := by
  induction r generalizing attempt with
  | zero =>
    simp [publishGo, List.countP_cons, PublishEvent.isSend, PublishEvent.isDeadLetter,
      PublishEvent.isDeadLetterTagged, failureReasonKey]
  | succ r ih =>
    have h := ih (attempt + 1)
    simp [publishGo, List.countP_cons, PublishEvent.isSend, PublishEvent.isDeadLetter,
      PublishEvent.isDeadLetterTagged] at h ⊢
    refine ⟨?_, h.2.1, h.2.2.1, h.2.2.2⟩
    omega

/-- The retry-count headers delivered by the consumer loop are the
consecutive naturals starting at the initial header value. -/
theorem consumeGo_deliveredRCs (p : RetryPolicy) (r rc : ℕ) :
    deliveredRCs (consumeGo p r rc) = List.range' rc (r + 1) := by
  induction r generalizing rc with
  | zero => simp [consumeGo, deliveredRCs, List.range']
  | succ r ih =>
    simp [consumeGo, deliveredRCs, List.range'] at ih ⊢
    exact ih (rc + 1)

/-- The consumer loop routes the message to the dead-letter exchange
exactly once. -/
theorem consumeGo_deadLetter_count (p : RetryPolicy) (r rc : ℕ) :
    (consumeGo p r rc).countP ConsumeEvent.isDeadLetter = 1 := by
  induction r generalizing rc with
  | zero => simp [consumeGo, List.countP_cons, ConsumeEvent.isDeadLetter]
  | succ r ih =>
    simp [consumeGo, List.countP_cons, List.countP_append, ConsumeEvent.isDeadLetter, ih]

/-- The consumer trace ends with the dead-letter routing followed only
by the ack that removes the already-delivered original from the primary
queue, and no dead-letter occurs earlier. -/
theorem consumeGo_splits_at_deadLetter (p : RetryPolicy) (r rc : ℕ) :
    ∃ pre, consumeGo p r rc =
        pre ++ [ConsumeEvent.deadLetter terminalFailureHeaders, ConsumeEvent.ack (rc + r)] ∧
      pre.countP ConsumeEvent.isDeadLetter = 0 := by
  induction r generalizing rc with
  | zero =>
    exact ⟨[.deliver rc], by simp [consumeGo],
      by simp [List.countP_cons, ConsumeEvent.isDeadLetter]⟩
  | succ r ih =>
    obtain ⟨pre, heq, hc⟩ := ih (rc + 1)
    refine ⟨[.deliver rc, .republish (rc + 1) (nextDelay p rc), .ack rc] ++ pre, ?_, ?_⟩
    · have harith : rc + 1 + r = rc + (r + 1) := by omega
      simp [consumeGo, heq, harith]
    · simp [List.countP_cons, List.countP_append, ConsumeEvent.isDeadLetter, hc]

/-! ### Claim theorems -/

/-- C1 (counterexample): the settings code enforces no bounds at all —
the environment `envBadRetry`, which violates every RetryPolicy bound
(`retry_count = -5 < 0`, `retry_multiplier = 0.5 < 1`,
`max_retry_interval < initial_retry_interval`,
`concurrent_consumers = 0`, `prefetch_count = 0`), still yields a
constructed settings object carrying exactly those out-of-bound
values, instead of failing fast. -/
theorem rabbitMqSettings_accepts_invalid_bounds :
    ¬ retryBoundsOk (mkRabbitMqSettings envBadRetry) ∧
    (mkRabbitMqSettings envBadRetry).retry_count = -5 ∧
    (mkRabbitMqSettings envBadRetry).retry_multiplier = mkRat 1 2 ∧
    (mkRabbitMqSettings envBadRetry).max_retry_interval_ms = 500 ∧
    (mkRabbitMqSettings envBadRetry).initial_retry_interval_ms = 1000 ∧
    (mkRabbitMqSettings envBadRetry).concurrent_consumers = 0 ∧
    (mkRabbitMqSettings envBadRetry).prefetch_count = 0 := by
  decide

/-- C1 (amended): constructing the settings never fails and performs no
validation: a parseable `RABBITMQ_RETRY_COUNT` value — including a
negative one — is stored unchanged, an unparseable or unset value
silently yields the default `3`, and a parseable
`RABBITMQ_RETRY_MULTIPLIER` — including one below `1` — is stored
unchanged. -/
theorem rabbitMqSettings_no_validation (env : Env) (v : String) (n : Int) (q : ℚ) :
    (env "RABBITMQ_RETRY_COUNT" = some v → pyIntOfString v = some n →
      (mkRabbitMqSettings env).retry_count = n) ∧
    (env "RABBITMQ_RETRY_COUNT" = some v → pyIntOfString v = none →
      (mkRabbitMqSettings env).retry_count = 3) ∧
    (env "RABBITMQ_RETRY_COUNT" = none → (mkRabbitMqSettings env).retry_count = 3) ∧
    (env "RABBITMQ_RETRY_MULTIPLIER" = some v → pyFloatOfString v = some q →
      (mkRabbitMqSettings env).retry_multiplier = q) := by
  refine ⟨fun h hn => ?_, fun h hn => ?_, fun h => ?_, fun h hq => ?_⟩
  · simp [mkRabbitMqSettings, get_env_var, h, hn, PyVal.asInt]
  · simp [mkRabbitMqSettings, get_env_var, h, hn, PyVal.asInt]
  · simp [mkRabbitMqSettings, get_env_var, h, PyVal.asInt]
  · simp [mkRabbitMqSettings, get_env_var, h, hq, PyVal.asFloat]

/-- C1 (witness): applying the no-validation theorem at the concrete
bound-violating environment: the negative retry count `-5` is accepted
unchanged. -/
theorem rabbitMqSettings_no_validation_witness :
    envBadRetry "RABBITMQ_RETRY_COUNT" = some "-5" ∧
    pyIntOfString "-5" = some (-5) ∧
    (mkRabbitMqSettings envBadRetry).retry_count = -5 :=
  ⟨rfl, by decide, (rabbitMqSettings_no_validation envBadRetry "-5" (-5) 0).1 rfl (by decide)⟩

/-- C2: `RetryScheduler.nextDelay` is the pure, deterministic function
`attempt ↦ min(initial * multiplier^attempt, max)` of the 0-indexed
attempt number; attempt 0 yields the initial interval when it does not
exceed the max interval, and the max interval otherwise.  No jitter
enters: the value is fully determined by the policy and the attempt. -/
theorem nextDelay_formula (p : RetryPolicy) (attempt : ℕ) :
    nextDelay p attempt = min (p.initialInterval * p.multiplier ^ attempt) p.maxInterval ∧
    (p.initialInterval ≤ p.maxInterval → nextDelay p 0 = p.initialInterval) ∧
    (p.maxInterval < p.initialInterval → nextDelay p 0 = p.maxInterval) := by
  refine ⟨rfl, fun h => ?_, fun h => ?_⟩
  · rw [nextDelay, pow_zero, mul_one, min_eq_left h]
  · rw [nextDelay, pow_zero, mul_one, min_eq_right h.le]

/-- C2 (witness): for the policy with initial = max = 100 and
multiplier 2, attempt 0 yields the initial interval. -/
theorem nextDelay_formula_witness : nextDelay ⟨100, 2, 100⟩ 0 = (100 : ℚ≥0) :=
  (nextDelay_formula ⟨100, 2, 100⟩ 0).2.1 (le_refl _)

/-- C3: a publish whose attempts are never confirmed by the broker
sends exactly `retry_count + 1` times, publishes the envelope to the
dead-letter exchange exactly once — with the `x-failure-reason` header
set — and returns `Err(PublishExhausted)`. -/
theorem publish_unconfirmed_exhausts_and_dead_letters (p : RetryPolicy) (retry_count : ℕ) :
    (publish p retry_count fun _ => false).1.countP PublishEvent.isSend = retry_count + 1 ∧
    (publish p retry_count fun _ => false).1.countP PublishEvent.isDeadLetter = 1 ∧
    (publish p retry_count fun _ => false).1.countP PublishEvent.isDeadLetterTagged = 1 ∧
    (publish p retry_count fun _ => false).2 =
      Except.error PublishError.publishExhausted :=
  publishGo_never_confirms p retry_count 0

/-- C4: under a handler that always fails, a message is delivered with
`x-retry-count` headers `0, 1, …, retry_count` — i.e. redelivered
exactly `retry_count` times with the header incrementing — then routed
to the dead-letter exchange exactly once; after the dead-letter routing
the only remaining event is the single ack removing the
already-delivered original from the primary queue, so the message is
never delivered from, re-published to, or acked on the primary queue
again. -/
theorem consume_always_failing_handler_dead_letters (p : RetryPolicy) (retry_count : ℕ) :
    deliveredRCs (consumeAlwaysFail p retry_count) = List.range (retry_count + 1) ∧
    (consumeAlwaysFail p retry_count).countP ConsumeEvent.isDeadLetter = 1 ∧
    ∃ pre, consumeAlwaysFail p retry_count =
        pre ++ [ConsumeEvent.deadLetter terminalFailureHeaders,
          ConsumeEvent.ack retry_count] ∧
      pre.countP ConsumeEvent.isDeadLetter = 0 := by
  refine ⟨?_, consumeGo_deadLetter_count p retry_count 0, ?_⟩
  · rw [consumeAlwaysFail, consumeGo_deliveredRCs, List.range_eq_range']
  · simpa [consumeAlwaysFail] using consumeGo_splits_at_deadLetter p retry_count 0

/-- C5: for a policy with multiplier ≥ 1 and max ≥ initial, every
delay is bounded by the max interval, the delay sequence is
non-decreasing, and once it reaches the max interval it stays there
(saturation). -/
theorem nextDelay_bounded_monotone (p : RetryPolicy) (hm : 1 ≤ p.multiplier)
    (_hi : p.initialInterval ≤ p.maxInterval) (attempt : ℕ) :
    nextDelay p attempt ≤ p.maxInterval ∧
    nextDelay p attempt ≤ nextDelay p (attempt + 1) ∧
    (nextDelay p attempt = p.maxInterval → nextDelay p (attempt + 1) = p.maxInterval) := by
  have hstep : p.initialInterval * p.multiplier ^ attempt ≤
      p.initialInterval * p.multiplier ^ (attempt + 1) :=
    mul_le_mul_left' (pow_le_pow_right' hm (Nat.le_succ _)) _
  refine ⟨min_le_right _ _, min_le_min hstep le_rfl, fun h => ?_⟩
  exact min_eq_right ((min_eq_right_iff.mp h).trans hstep)

/-- C5 (witness): the bound and the monotone step at attempt 3 for the
policy with initial = max = 100 and multiplier 2. -/
theorem nextDelay_bounded_monotone_witness :
    nextDelay ⟨100, 2, 100⟩ 3 ≤ (⟨100, 2, 100⟩ : RetryPolicy).maxInterval ∧
    nextDelay ⟨100, 2, 100⟩ 3 ≤ nextDelay ⟨100, 2, 100⟩ 4 ∧
    (nextDelay ⟨100, 2, 100⟩ 3 = (⟨100, 2, 100⟩ : RetryPolicy).maxInterval →
      nextDelay ⟨100, 2, 100⟩ 4 = (⟨100, 2, 100⟩ : RetryPolicy).maxInterval) :=
  nextDelay_bounded_monotone ⟨100, 2, 100⟩ one_le_two (le_refl _) 3

/-- C6: application startup runs connect, then topology declaration,
then consumer startup, in that order (the attempted-step trace is
always a prefix of that sequence), and the lifespan completes startup
if and only if the database check and every step of that sequence
succeed — any failure propagates out as an error, with no
partial-degraded mode. -/
theorem startup_sequence_all_or_nothing (dbOk : Bool) (ok : StartupStep → Bool) :
    (lifespanStartup dbOk ok = .ok () ↔
      dbOk = true ∧ ok .connect = true ∧ ok .declareTopology = true ∧
        ok .startConsumers = true) ∧
    (managerStartup ok).1 =
      [StartupStep.connect, .declareTopology, .startConsumers].take
        (managerStartup ok).1.length := by
  cases dbOk <;> cases h1 : ok .connect <;> cases h2 : ok .declareTopology <;>
    cases h3 : ok .startConsumers <;>
      simp [lifespanStartup, managerStartup, h1, h2, h3]

/-- C8: `AuthMiddleware.dispatch` passes every `OPTIONS` request, and
every request whose path starts with one of the configured public
prefixes `/docs`, `/openapi`, `/health`, straight to the downstream
handler with no token validation (for every validator); for any other
request whose `Authorization` header is absent or does not start with
`"Bearer "` it returns the 401 response and never invokes the
downstream handler. -/
theorem authMiddleware_gate (validate : String → ValidatorRes) (method path : String)
    (authHeader : Option String) :
    (method = "OPTIONS" →
      dispatch validate mainPublicApis method path authHeader = .nextPublic) ∧
    (mainPublicApis.any (fun api => pyStartsWith path api) = true →
      dispatch validate mainPublicApis method path authHeader = .nextPublic) ∧
    (method ≠ "OPTIONS" →
      mainPublicApis.any (fun api => pyStartsWith path api) = false →
      (authHeader = none ∨ ∃ t, authHeader = some t ∧ pyStartsWith t "Bearer " = false) →
      dispatch validate mainPublicApis method path authHeader =
        .unauthorized "Invalid token") := by
  refine ⟨fun h => ?_, fun h => ?_, fun hm hp ha => ?_⟩
  · simp [dispatch, h]
  · by_cases hm : method = "OPTIONS" <;> simp [dispatch, hm, h]
  · rcases ha with h | ⟨t, ht, hb⟩
    · simp [dispatch, hm, hp, h]
    · simp [dispatch, hm, hp, ht, hb]

/-- C8 (witness): a `GET` on the non-public payments route with no
`Authorization` header is rejected with 401 and never reaches the
downstream handler. -/
theorem authMiddleware_gate_witness :
    ("GET" : String) ≠ "OPTIONS" ∧
    mainPublicApis.any (fun api => pyStartsWith "/api/v1/payments" api) = false ∧
    dispatch (fun _ => .otherExc) mainPublicApis "GET" "/api/v1/payments" none =
      .unauthorized "Invalid token" :=
  ⟨by decide, by decide,
    (authMiddleware_gate (fun _ => .otherExc) "GET" "/api/v1/payments" none).2.2
      (by decide) (by decide) (Or.inl rfl)⟩

/-- C9: `get_env_var` is total (exceptions are caught into defaults):
an unset variable yields the default of any type; with a bool default
and a set value the result is `True` exactly when the lowercased value
is one of `true, 1, t, yes, y` and `False` otherwise — independent of
the default bool, which is therefore returned only when the variable
is unset; a set value not convertible to an int or float default
yields the default, a convertible int value yields its parse, and a
str default always yields the raw value. -/
theorem get_env_var_semantics (env : Env) (name v : String) :
    (∀ d, env name = none → get_env_var env name d = d) ∧
    (∀ b0, env name = some v →
      ((get_env_var env name (.b b0) = .b true ↔ pyLower v ∈ truthyStrings) ∧
        (get_env_var env name (.b b0) = .b false ↔ pyLower v ∉ truthyStrings) ∧
        get_env_var env name (.b b0) = get_env_var env name (.b (!b0)))) ∧
    (∀ n0, env name = some v → pyIntOfString v = none →
      get_env_var env name (.i n0) = .i n0) ∧
    (∀ n0 n, env name = some v → pyIntOfString v = some n →
      get_env_var env name (.i n0) = .i n) ∧
    (∀ q0, env name = some v → pyFloatOfString v = none →
      get_env_var env name (.f q0) = .f q0) ∧
    (∀ s0, env name = some v → get_env_var env name (.s s0) = .s v) := by
  refine ⟨fun d h => ?_, fun b0 h => ?_, fun n0 h hi => ?_, fun n0 n h hn => ?_,
    fun q0 h hq => ?_, fun s0 h => ?_⟩
  · simp [get_env_var, h]
  · simp [get_env_var, h]
  · simp [get_env_var, h, hi]
  · simp [get_env_var, h, hn]
  · simp [get_env_var, h, hq]
  · simp [get_env_var, h]

/-- C9 (witness): with `PAYMENT_DEBUG=Yes` set, the bool lookup with
default `False` yields `True` (the mixed-case `"Yes"` lowercases into
the truthy set). -/
theorem get_env_var_semantics_witness :
    envFlagYes "PAYMENT_DEBUG" = some "Yes" ∧
    get_env_var envFlagYes "PAYMENT_DEBUG" (.b false) = .b true :=
  ⟨rfl,
    (((get_env_var_semantics envFlagYes "PAYMENT_DEBUG" "Yes").2.1 false rfl).1).mpr
      (by decide)⟩

/-- C10: each CORS list field is the comma-split of the raw
environment value; with the variable unset the default `""` splits
into the one-element list containing the empty string — never the
empty list — and in general every such field is non-empty. -/
theorem cors_fields_split_nonempty (env : Env) (v : String) :
    (env "ALLOWED_ORIGINS" = none → (mkCORSSettings env).allow_origins = [""]) ∧
    (env "ALLOWED_METHODS" = none → (mkCORSSettings env).allow_methods = [""]) ∧
    (env "ALLOWED_HEADERS" = none → (mkCORSSettings env).allow_headers = [""]) ∧
    (env "ALLOWED_ORIGINS" = some v →
      (mkCORSSettings env).allow_origins = pySplit v ",") ∧
    (mkCORSSettings env).allow_origins ≠ [] ∧
    (mkCORSSettings env).allow_methods ≠ [] ∧
    (mkCORSSettings env).allow_headers ≠ [] := by
  refine ⟨fun h => ?_, fun h => ?_, fun h => ?_, fun h => ?_,
    pySplit_ne_nil _ _, pySplit_ne_nil _ _, pySplit_ne_nil _ _⟩ <;>
    simp [mkCORSSettings, get_env_var, h, PyVal.asStr] <;> rfl

/-- C10 (witness): in the empty environment the origins field is the
one-element list containing the empty string. -/
theorem cors_fields_split_nonempty_witness :
    envUnset "ALLOWED_ORIGINS" = none ∧
    (mkCORSSettings envUnset).allow_origins = [""] :=
  ⟨rfl, (cors_fields_split_nonempty envUnset "").1 rfl⟩

end Ora
